import Mathlib

/-
  Verification development for the darji-pro appointment-scheduling core.

  Shallow embedding of:
    - backend/app/models/appointment.py  (Appointment, AppointmentStatus, AppointmentType)
    - backend/app/models/user.py         (User roles)
    - backend/app/schemas/appointment.py (pydantic validation of create/update payloads)
    - backend/app/api/appointments.py    (create / update / status-update /
                                          reschedule / cancel handlers, slot generation)

  Timestamps (`datetime`) are modelled as `Int` minutes; the database is a
  `List Appointment`; `scalar_one_or_none` on an id filter is `List.find?`;
  raising an `HTTPException` before any mutation is `Except.error` (the
  transaction never commits, so the state is unchanged).  The ORM-managed
  `created_at` / `updated_at` columns and the float `rush_fee` column are not
  modelled: no handler under study reads or writes them.  The slot-generation
  `while` loop is embedded with explicit fuel (`slotsLoop`), `none` marking a
  run that did not finish within the given fuel.
-/

deriving instance DecidableEq for Except

namespace DarjiPro

/-- Appointment status enumeration (models/appointment.py `AppointmentStatus`). -/
inductive AppointmentStatus where
  | pending
  | confirmed
  | in_progress
  | completed
  | cancelled
  | rescheduled
  | no_show
deriving DecidableEq

/-- Appointment type enumeration (models/appointment.py `AppointmentType`). -/
inductive AppointmentType where
  | measurement
  | fitting
  | delivery
  | consultation
  | alteration
deriving DecidableEq

/-- User role enumeration (models/user.py `UserRole`). -/
inductive UserRole where
  | customer
  | tailor
  | admin
  | staff
deriving DecidableEq

/-- The slice of the User model the appointment handlers read. -/
structure User where
  id : Nat
  role : UserRole
  is_priority : Bool := false
deriving DecidableEq

def User.is_customer (u : User) : Bool := u.role == UserRole.customer

def User.is_tailor (u : User) : Bool := u.role == UserRole.tailor

def User.is_admin (u : User) : Bool := u.role == UserRole.admin

def User.is_staff (u : User) : Bool := u.role == UserRole.staff

/-- The status filter `status.in_([PENDING, CONFIRMED, IN_PROGRESS])` used by the
conflict query in `create_appointment` and the availability query. -/
def statusIsLive : AppointmentStatus → Bool
  | .pending => true
  | .confirmed => true
  | .in_progress => true
  | _ => false

/-- The Appointment row (models/appointment.py), minutes for datetimes.
Defaults mirror the column defaults of the ORM model. -/
structure Appointment where
  id : Nat
  customer_id : Nat
  tailor_id : Nat
  branch_id : Nat
  appointment_type : AppointmentType
  scheduled_date : Int
  duration_minutes : Int := 30
  status : AppointmentStatus := .pending
  is_priority : Bool := false
  is_rush : Bool := false
  customer_notes : Option String := none
  tailor_notes : Option String := none
  cancellation_reason : Option String := none
  confirmation_sent : Bool := false
  reminder_sent : Bool := false
  original_appointment_id : Option Nat := none
  reschedule_count : Int := 0
  cancelled_at : Option Int := none
  completed_at : Option Int := none
deriving DecidableEq

/-- models/appointment.py `Appointment.is_active`. -/
def Appointment.is_active (a : Appointment) : Bool :=
  !(a.status == .cancelled || a.status == .completed || a.status == .no_show)

/-- models/appointment.py `Appointment.can_reschedule`. -/
def Appointment.can_reschedule (a : Appointment) : Bool :=
  a.status == .pending || a.status == .confirmed

/-- models/appointment.py `Appointment.can_cancel`. -/
def Appointment.can_cancel (a : Appointment) : Bool :=
  a.status == .pending || a.status == .confirmed

/-- Client-visible error kinds of the API boundary: 404, 403, 400, 409, 422. -/
inductive ApiError where
  | notFound
  | permissionDenied
  | preconditionFailed
  | conflict
  | validationError
deriving DecidableEq

/-- Validated payload of `AppointmentCreate` (schemas/appointment.py). -/
structure AppointmentCreate where
  appointment_type : AppointmentType
  scheduled_date : Int
  duration_minutes : Int
  customer_notes : Option String
  tailor_id : Nat
  branch_id : Nat
  is_priority : Bool
  is_rush : Bool
deriving DecidableEq

/-- Raw (pre-validation) create payload: `duration_minutes` may be omitted,
in which case pydantic supplies the default 30. -/
structure RawAppointmentCreate where
  appointment_type : AppointmentType
  scheduled_date : Int
  duration_minutes : Option Int := none
  customer_notes : Option String := none
  tailor_id : Nat
  branch_id : Nat
  is_priority : Bool := false
  is_rush : Bool := false
deriving DecidableEq

/-- The pydantic constraint `Field(ge=15, le=240)` on `duration_minutes`. -/
def validDuration (d : Int) : Bool := decide (15 ≤ d) && decide (d ≤ 240)

/-- The pydantic constraint `Field(max_length=1000)` on an optional notes field. -/
def validNotes : Option String → Bool
  | some s => decide (s.length ≤ 1000)
  | none => true

/-- Pydantic validation of `AppointmentCreate`: `duration_minutes` defaults to 30
and must lie in [15, 240]; `customer_notes` is capped at 1000 characters. -/
def validate_create (r : RawAppointmentCreate) : Except ApiError AppointmentCreate :=
  if validDuration (r.duration_minutes.getD 30) && validNotes r.customer_notes then
    .ok { appointment_type := r.appointment_type
          scheduled_date := r.scheduled_date
          duration_minutes := r.duration_minutes.getD 30
          customer_notes := r.customer_notes
          tailor_id := r.tailor_id
          branch_id := r.branch_id
          is_priority := r.is_priority
          is_rush := r.is_rush }
  else
    .error .validationError

/-- `AppointmentUpdate` payload (schemas/appointment.py): all fields optional. -/
structure AppointmentUpdate where
  scheduled_date : Option Int := none
  duration_minutes : Option Int := none
  customer_notes : Option String := none
  tailor_notes : Option String := none
deriving DecidableEq

/-- Pydantic validation of `AppointmentUpdate`: a provided `duration_minutes`
must lie in [15, 240]; either notes field is capped at 1000 characters. -/
def validate_update (r : AppointmentUpdate) : Except ApiError AppointmentUpdate :=
  if (match r.duration_minutes with
      | some d => validDuration d
      | none => true)
     && validNotes r.customer_notes && validNotes r.tailor_notes then
    .ok r
  else
    .error .validationError

/-- The conflict predicate of `create_appointment` (api/appointments.py lines
49-59): same tailor, *exactly equal* `scheduled_date`, live status. -/
def createConflictsWith (data : AppointmentCreate) (a : Appointment) : Bool :=
  a.tailor_id == data.tailor_id && a.scheduled_date == data.scheduled_date &&
    statusIsLive a.status

/-- The appointment row built by `create_appointment` on the success path. -/
def newAppointmentRow (current_user : User) (data : AppointmentCreate)
    (newId : Nat) : Appointment :=
  { id := newId
    customer_id := current_user.id
    tailor_id := data.tailor_id
    branch_id := data.branch_id
    appointment_type := data.appointment_type
    scheduled_date := data.scheduled_date
    duration_minutes := data.duration_minutes
    customer_notes := data.customer_notes
    is_priority := data.is_priority || current_user.is_priority
    is_rush := data.is_rush
    status := .pending }

/-- The notification collaborator: `notifyFails = true` models
`send_appointment_confirmation` raising an exception. -/
def attemptNotification (notifyFails : Bool) : Option Unit :=
  if notifyFails then none else some ()

/-- api/appointments.py `create_appointment` (POST /appointments):
conflict check by exact `scheduled_date` equality against live appointments of
the tailor, then insert of a new `pending` row, then a notification attempt
whose failure is caught and swallowed (`try`/`except` around the dispatch). -/
def create_appointment (db : List Appointment) (current_user : User)
    (data : AppointmentCreate) (newId : Nat) (notifyFails : Bool) :
    Except ApiError (List Appointment × Appointment) :=
  if db.any (createConflictsWith data) then
    .error .conflict
  else
    let new_appointment := newAppointmentRow current_user data newId
    let committed := db ++ [new_appointment]
    match attemptNotification notifyFails with
    | some _ => .ok (committed, new_appointment)
    | none => .ok (committed, new_appointment)

/-- The field-by-field mutation of `update_appointment` (lines 212-220).
Python truthiness is preserved: `if appointment_update.duration_minutes:` skips
the value 0, and a datetime object is always truthy; tailor notes are applied
only for a tailor or admin actor. -/
def applyUpdate (current_user : User) (upd : AppointmentUpdate)
    (appointment : Appointment) : Appointment :=
  let a1 := match upd.scheduled_date with
    | some d => { appointment with scheduled_date := d }
    | none => appointment
  let a2 := match upd.duration_minutes with
    | some d => if d == 0 then a1 else { a1 with duration_minutes := d }
    | none => a1
  let a3 := match upd.customer_notes with
    | some s => { a2 with customer_notes := some s }
    | none => a2
  match upd.tailor_notes with
  | some s =>
    if current_user.is_tailor || current_user.is_admin then
      { a3 with tailor_notes := some s }
    else a3
  | none => a3

/-- api/appointments.py `update_appointment` (PUT /appointments/id).  No
conflict check is performed on an updated `scheduled_date` or duration. -/
def update_appointment (db : List Appointment) (current_user : User)
    (appointment_id : Nat) (upd : AppointmentUpdate) :
    Except ApiError (List Appointment × Appointment) :=
  match db.find? (fun a => a.id == appointment_id) with
  | none => .error .notFound
  | some appointment =>
    if current_user.is_customer && !(appointment.customer_id == current_user.id) then
      .error .permissionDenied
    else
      let a4 := applyUpdate current_user upd appointment
      .ok (db.map (fun a => if a.id == appointment_id then a4 else a), a4)

/-- The row mutation of `update_appointment_status` (lines 250-255): set the
status, apply non-empty notes (`if status_update.notes:` skips the empty string
— Python truthiness), and stamp `completed_at` on a transition to completed. -/
def statusUpdatedRow (appointment : Appointment) (new_status : AppointmentStatus)
    (notes : Option String) (now : Int) : Appointment :=
  let a1 := { appointment with status := new_status }
  let a2 := match notes with
    | some s => if s == "" then a1 else { a1 with tailor_notes := some s }
    | none => a1
  if new_status == .completed then { a2 with completed_at := some now } else a2

/-- api/appointments.py `update_appointment_status` (PATCH /appointments/id/status).
The role gate admits any tailor, admin, or staff. -/
def update_appointment_status (db : List Appointment) (current_user : User)
    (appointment_id : Nat) (new_status : AppointmentStatus)
    (notes : Option String) (now : Int) :
    Except ApiError (List Appointment × Appointment) :=
  if !(current_user.is_tailor || current_user.is_admin || current_user.is_staff) then
    .error .permissionDenied
  else
    match db.find? (fun a => a.id == appointment_id) with
    | none => .error .notFound
    | some appointment =>
      let a3 := statusUpdatedRow appointment new_status notes now
      .ok (db.map (fun a => if a.id == appointment_id then a3 else a), a3)

/-- The in-place mutation done by a successful reschedule (lines 290-292):
new `scheduled_date`, status stamped `rescheduled`, `reschedule_count += 1`. -/
def rescheduledRow (a : Appointment) (new_scheduled_date : Int) : Appointment :=
  { a with scheduled_date := new_scheduled_date
           status := .rescheduled
           reschedule_count := a.reschedule_count + 1 }

/-- api/appointments.py `reschedule_appointment` (POST /appointments/id/reschedule).
No conflict check is performed on the new time. -/
def reschedule_appointment (db : List Appointment) (current_user : User)
    (appointment_id : Nat) (new_scheduled_date : Int) :
    Except ApiError (List Appointment × Appointment) :=
  match db.find? (fun a => a.id == appointment_id) with
  | none => .error .notFound
  | some appointment =>
    if !appointment.can_reschedule then
      .error .preconditionFailed
    else if current_user.is_customer && !(appointment.customer_id == current_user.id) then
      .error .permissionDenied
    else
      let updated := rescheduledRow appointment new_scheduled_date
      .ok (db.map (fun a => if a.id == appointment_id then updated else a), updated)

/-- api/appointments.py `cancel_appointment` (POST /appointments/id/cancel).
The `can_cancel` guard (400) runs before the ownership check (403); on success
the row gets status `cancelled`, the reason, and a `cancelled_at` stamp. -/
def cancel_appointment (db : List Appointment) (current_user : User)
    (appointment_id : Nat) (cancellation_reason : String) (now : Int) :
    Except ApiError (List Appointment) :=
  match db.find? (fun a => a.id == appointment_id) with
  | none => .error .notFound
  | some appointment =>
    if !appointment.can_cancel then
      .error .preconditionFailed
    else if current_user.is_customer && !(appointment.customer_id == current_user.id) then
      .error .permissionDenied
    else
      .ok (db.map (fun a =>
        if a.id == appointment_id then
          { a with status := .cancelled
                   cancellation_reason := some cancellation_reason
                   cancelled_at := some now }
        else a))

/-- Full POST /appointments pipeline: pydantic validation, then the handler. -/
def api_create_appointment (db : List Appointment) (current_user : User)
    (raw : RawAppointmentCreate) (newId : Nat) (notifyFails : Bool) :
    Except ApiError (List Appointment × Appointment) :=
  match validate_create raw with
  | .error e => .error e
  | .ok data => create_appointment db current_user data newId notifyFails

/-- Full PUT /appointments/id pipeline: pydantic validation, then the handler. -/
def api_update_appointment (db : List Appointment) (current_user : User)
    (appointment_id : Nat) (upd : AppointmentUpdate) :
    Except ApiError (List Appointment × Appointment) :=
  match validate_update upd with
  | .error e => .error e
  | .ok u2 => update_appointment db current_user appointment_id u2

/-- Post-state semantics of a cancel request: an `HTTPException` is raised
before any mutation, so on error the database is unchanged. -/
def runCancel (db : List Appointment) (current_user : User)
    (appointment_id : Nat) (cancellation_reason : String) (now : Int) :
    List Appointment × Option ApiError :=
  match cancel_appointment db current_user appointment_id cancellation_reason now with
  | .ok db2 => (db2, none)
  | .error e => (db, some e)

/-- Post-state semantics of a status-update request: on error the database is
unchanged. -/
def runStatusUpdate (db : List Appointment) (current_user : User)
    (appointment_id : Nat) (new_status : AppointmentStatus)
    (notes : Option String) (now : Int) :
    List Appointment × Option ApiError :=
  match update_appointment_status db current_user appointment_id new_status notes now with
  | .ok p => (p.1, none)
  | .error e => (db, some e)

/-- One slot of the availability response (start, end, availability flag). -/
structure AvailabilitySlot where
  start_time : Int
  end_time : Int
  is_available : Bool
deriving DecidableEq

/-- The half-open overlap test used when marking a slot against an existing
appointment (lines 406-409): `current_slot < app_end and slot_end > app_start`. -/
def slot_is_available (existing : List Appointment)
    (current_slot slot_end : Int) : Bool :=
  !existing.any (fun ap =>
    decide (current_slot < ap.scheduled_date + ap.duration_minutes) &&
      decide (slot_end > ap.scheduled_date))

/-- The DB query of `get_availability` fetching existing appointments: same
tailor, `scheduled_date` in `[start_time, end_time)`, live status. -/
def fetch_existing (db : List Appointment) (tailor_id : Nat)
    (start_time end_time : Int) : List Appointment :=
  db.filter (fun a =>
    a.tailor_id == tailor_id && decide (start_time ≤ a.scheduled_date) &&
      decide (a.scheduled_date < end_time) && statusIsLive a.status)

/-- The slot-generation `while` loop of `get_availability` (lines 396-426),
with explicit fuel.  `while current_slot < end_time:` emits the slot
`[current_slot, current_slot + slot_duration)` and advances; `none` means the
loop did not finish within `fuel` iterations. -/
def slotsLoop (end_time slot_duration : Int) (existing : List Appointment) :
    Nat → Int → Option (List AvailabilitySlot)
  | 0, current_slot =>
    if current_slot < end_time then none else some []
  | fuel + 1, current_slot =>
    if current_slot < end_time then
      (slotsLoop end_time slot_duration existing fuel
          (current_slot + slot_duration)).map
        (fun rest =>
          { start_time := current_slot
            end_time := current_slot + slot_duration
            is_available :=
              slot_is_available existing current_slot
                (current_slot + slot_duration) } :: rest)
    else some []

/-- Slot generation with its canonical fuel: `(end - start).toNat` iterations
always suffice when `slot_duration ≥ 1` (each step advances by at least one
minute), so for a positive duration this is exactly the source loop's output. -/
def generate_slots (start_time end_time slot_duration : Int)
    (existing : List Appointment) : Option (List AvailabilitySlot) :=
  slotsLoop end_time slot_duration existing (end_time - start_time).toNat start_time

/-- Two live appointments of the same tailor with intersecting half-open
intervals (the pair the spec's invariant forbids). -/
def conflictB (a b : Appointment) : Bool :=
  a.tailor_id == b.tailor_id && statusIsLive a.status && statusIsLive b.status &&
    decide (a.scheduled_date < b.scheduled_date + b.duration_minutes) &&
    decide (b.scheduled_date < a.scheduled_date + a.duration_minutes)

/-- The spec's invariant: no two live appointments of the same tailor overlap. -/
def liveNoOverlap : List Appointment → Bool
  | [] => true
  | a :: rest => rest.all (fun b => !conflictB a b) && liveNoOverlap rest

/-- Two live appointments of the same tailor with exactly equal start times
(the pair the implemented equality-only conflict check forbids). -/
def sameStartClashB (a b : Appointment) : Bool :=
  a.tailor_id == b.tailor_id && statusIsLive a.status && statusIsLive b.status &&
    a.scheduled_date == b.scheduled_date

/-- The weaker invariant the implemented check maintains: live appointments of
the same tailor have pairwise distinct start times. -/
def liveDistinctStarts : List Appointment → Bool
  | [] => true
  | a :: rest => rest.all (fun b => !sameStartClashB a b) && liveDistinctStarts rest

/-- The schema bound on a stored duration (15 to 240 minutes inclusive). -/
def durationInBounds (a : Appointment) : Prop :=
  15 ≤ a.duration_minutes ∧ a.duration_minutes ≤ 240

instance (a : Appointment) : Decidable (durationInBounds a) := by
  unfold durationInBounds
  infer_instance

/-! ### Concrete fixtures (10:00 = minute 600 of the day) -/

/-- A confirmed appointment of tailor 1 at 10:00–10:30. -/
def tailor1Confirmed600 : Appointment :=
  { id := 1, customer_id := 4, tailor_id := 1, branch_id := 1,
    appointment_type := .fitting, scheduled_date := 600,
    duration_minutes := 30, status := .confirmed }

/-- A pending appointment of tailor 1 at 11:40–12:10. -/
def tailor1Pending700 : Appointment :=
  { id := 2, customer_id := 5, tailor_id := 1, branch_id := 1,
    appointment_type := .measurement, scheduled_date := 700,
    duration_minutes := 30, status := .pending }

/-- A completed appointment of tailor 1 at 08:20. -/
def tailor1Completed500 : Appointment :=
  { id := 3, customer_id := 5, tailor_id := 1, branch_id := 1,
    appointment_type := .delivery, scheduled_date := 500,
    duration_minutes := 30, status := .completed }

def adminUser : User := { id := 9, role := .admin }

def customerUser : User := { id := 5, role := .customer }

/-- A tailor account that is not the tailor-of-record of the fixtures above. -/
def tailorUser2 : User := { id := 2, role := .tailor }

/-- Booking request for 10:15–10:45, overlapping `tailor1Confirmed600`. -/
def overlapRequest : AppointmentCreate :=
  { appointment_type := .fitting, scheduled_date := 615, duration_minutes := 30,
    customer_notes := none, tailor_id := 1, branch_id := 1,
    is_priority := false, is_rush := false }

/-- Booking request for 10:30–11:00, touching `tailor1Confirmed600`. -/
def touchRequest : AppointmentCreate :=
  { appointment_type := .fitting, scheduled_date := 630, duration_minutes := 30,
    customer_notes := none, tailor_id := 1, branch_id := 1,
    is_priority := false, is_rush := false }

def sampleReason : String := "customer no longer available"

/-- A create request with an out-of-bounds duration of 10 minutes. -/
def badDurationRequest : RawAppointmentCreate :=
  { appointment_type := .fitting, scheduled_date := 600,
    duration_minutes := some 10, tailor_id := 1, branch_id := 1 }

/-- A create request that omits `duration_minutes`. -/
def defaultDurationRequest : RawAppointmentCreate :=
  { appointment_type := .consultation, scheduled_date := 800,
    tailor_id := 1, branch_id := 1 }

/-- The validated payload of `defaultDurationRequest` (duration defaulted). -/
def defaultDurationData : AppointmentCreate :=
  { appointment_type := .consultation, scheduled_date := 800,
    duration_minutes := 30, customer_notes := none, tailor_id := 1,
    branch_id := 1, is_priority := false, is_rush := false }


/-! ### Slot-generation lemmas -/

/-- Every slot emitted by the loop has length `slot_duration` and a start time
in `[cur, end_time)`; note the end time is **not** bounded by `end_time`. -/
theorem slotsLoop_mem {e d : Int} {ex : List Appointment} (hd : 1 ≤ d) :
    ∀ (fuel : Nat) (cur : Int) (slots : List AvailabilitySlot),
      slotsLoop e d ex fuel cur = some slots →
      ∀ s ∈ slots, s.end_time = s.start_time + d ∧ cur ≤ s.start_time ∧ s.start_time < e := by
  intro fuel
  induction fuel with
  | zero =>
    intro cur slots h s hs
    simp only [slotsLoop] at h
    split at h
    · exact Option.noConfusion h
    · obtain rfl : ([] : List AvailabilitySlot) = slots := by injection h
      cases hs
  | succ fuel ih =>
    intro cur slots h s hs
    simp only [slotsLoop] at h
    split at h
    next hlt =>
      cases hrec : slotsLoop e d ex fuel (cur + d) with
      | none =>
        rw [hrec] at h
        simp only [Option.map_none'] at h
        exact Option.noConfusion h
      | some rest =>
        rw [hrec] at h
        simp only [Option.map_some'] at h
        obtain rfl :
            ({ start_time := cur, end_time := cur + d,
               is_available := slot_is_available ex cur (cur + d) } :
                AvailabilitySlot) :: rest = slots := by injection h
        rcases List.mem_cons.mp hs with rfl | hmem
        · exact ⟨rfl, le_refl cur, hlt⟩
        · obtain ⟨h1, h2, h3⟩ := ih (cur + d) rest hrec s hmem
          exact ⟨h1, by omega, h3⟩
    next =>
      obtain rfl : ([] : List AvailabilitySlot) = slots := by injection h
      cases hs

/-- The emitted slots are pairwise ordered: every earlier slot ends no later
than every later slot starts (hence non-overlapping, in start order). -/
theorem slotsLoop_pairwise {e d : Int} {ex : List Appointment} (hd : 1 ≤ d) :
    ∀ (fuel : Nat) (cur : Int) (slots : List AvailabilitySlot),
      slotsLoop e d ex fuel cur = some slots →
      List.Pairwise (fun s t => s.end_time ≤ t.start_time) slots := by
  intro fuel
  induction fuel with
  | zero =>
    intro cur slots h
    simp only [slotsLoop] at h
    split at h
    · exact Option.noConfusion h
    · obtain rfl : ([] : List AvailabilitySlot) = slots := by injection h
      exact List.Pairwise.nil
  | succ fuel ih =>
    intro cur slots h
    simp only [slotsLoop] at h
    split at h
    next hlt =>
      cases hrec : slotsLoop e d ex fuel (cur + d) with
      | none =>
        rw [hrec] at h
        simp only [Option.map_none'] at h
        exact Option.noConfusion h
      | some rest =>
        rw [hrec] at h
        simp only [Option.map_some'] at h
        obtain rfl :
            ({ start_time := cur, end_time := cur + d,
               is_available := slot_is_available ex cur (cur + d) } :
                AvailabilitySlot) :: rest = slots := by injection h
        refine List.Pairwise.cons ?_ (ih (cur + d) rest hrec)
        intro t ht
        exact (slotsLoop_mem hd fuel (cur + d) rest hrec t ht).2.1
    next =>
      obtain rfl : ([] : List AvailabilitySlot) = slots := by injection h
      exact List.Pairwise.nil

/-- For a positive slot duration the loop terminates: `(e - cur).toNat` fuel
always suffices, because each iteration advances by at least one minute. -/
theorem slotsLoop_total {e d : Int} {ex : List Appointment} (hd : 1 ≤ d) :
    ∀ (fuel : Nat) (cur : Int), (e - cur).toNat ≤ fuel →
      ∃ slots, slotsLoop e d ex fuel cur = some slots := by
  intro fuel
  induction fuel with
  | zero =>
    intro cur hfe
    have hlt : ¬ cur < e := by omega
    exact ⟨[], by simp [slotsLoop, hlt]⟩
  | succ fuel ih =>
    intro cur hfe
    by_cases hlt : cur < e
    · obtain ⟨rest, hrest⟩ := ih (cur + d) (by omega)
      refine ⟨{ start_time := cur, end_time := cur + d,
                 is_available := slot_is_available ex cur (cur + d) } :: rest, ?_⟩
      simp [slotsLoop, hlt, hrest]
    · exact ⟨[], by simp [slotsLoop, hlt]⟩

/-- For `slot_duration ≤ 0` and a nonempty window, no amount of fuel finishes
the loop: the source `while` loop does not terminate. -/
theorem slotsLoop_diverges {e d : Int} {ex : List Appointment} (hd : d ≤ 0) :
    ∀ (fuel : Nat) (cur : Int), cur < e →
      slotsLoop e d ex fuel cur = none := by
  intro fuel
  induction fuel with
  | zero =>
    intro cur hlt
    simp [slotsLoop, hlt]
  | succ fuel ih =>
    intro cur hlt
    have : cur + d < e := by omega
    simp [slotsLoop, hlt, ih (cur + d) this]

/-! ### Claim theorems -/

/-- C3 (amended): for a positive slot duration, every generated slot has length
exactly `slot_duration`, the slots are pairwise non-overlapping and in
non-decreasing start order, and every slot **starts** inside
`[start_time, end_time)` — but the final slot's end may exceed `end_time`,
because the loop emits a slot whenever its start is before the window end. -/
theorem generate_slots_geometry (start_time end_time slot_duration : Int)
    (existing : List Appointment) (slots : List AvailabilitySlot)
    (hd : 1 ≤ slot_duration)
    (h : generate_slots start_time end_time slot_duration existing = some slots) :
    (∀ s ∈ slots, s.end_time - s.start_time = slot_duration)
    ∧ List.Pairwise (fun s t => s.end_time ≤ t.start_time) slots
    ∧ List.Pairwise (fun s t => s.start_time ≤ t.start_time) slots
    ∧ ∀ s ∈ slots, start_time ≤ s.start_time ∧ s.start_time < end_time := by
  unfold generate_slots at h
  have hmem := slotsLoop_mem hd _ _ _ h
  have hpw := slotsLoop_pairwise hd _ _ _ h
  refine ⟨?_, hpw, ?_, ?_⟩
  · intro s hs
    have := hmem s hs
    omega
  · refine List.Pairwise.imp_of_mem ?_ hpw
    intro a b ha hb hab
    have h1 := hmem a ha
    omega
  · intro s hs
    exact ⟨(hmem s hs).2.1, (hmem s hs).2.2⟩

/-- Witness for C3 at the spec's Scenario 1 window 09:00–12:00 (540–720) with
60-minute slots. -/
theorem generate_slots_geometry_witness :
    (∀ s ∈ ([⟨540, 600, true⟩, ⟨600, 660, true⟩, ⟨660, 720, true⟩] :
        List AvailabilitySlot), s.end_time - s.start_time = 60)
    ∧ List.Pairwise (fun s t => s.end_time ≤ t.start_time)
        ([⟨540, 600, true⟩, ⟨600, 660, true⟩, ⟨660, 720, true⟩] :
          List AvailabilitySlot)
    ∧ List.Pairwise (fun s t => s.start_time ≤ t.start_time)
        ([⟨540, 600, true⟩, ⟨600, 660, true⟩, ⟨660, 720, true⟩] :
          List AvailabilitySlot)
    ∧ ∀ s ∈ ([⟨540, 600, true⟩, ⟨600, 660, true⟩, ⟨660, 720, true⟩] :
        List AvailabilitySlot), 540 ≤ s.start_time ∧ s.start_time < 720 :=
  generate_slots_geometry 540 720 60 []
    [⟨540, 600, true⟩, ⟨600, 660, true⟩, ⟨660, 720, true⟩]
    (by decide) (by decide)

/-- C3 counterexample: the 09:00–11:30 window (540–690) with 60-minute slots
yields 3 slots, not 2, and the final slot 11:00–12:00 runs past the window end
(720 > 690): the claimed containment in `[start_time, end_time)` fails. -/
theorem generate_slots_overrun_counterexample :
    generate_slots 540 690 60 [] =
      some [⟨540, 600, true⟩, ⟨600, 660, true⟩, ⟨660, 720, true⟩]
    ∧ ([(⟨540, 600, true⟩ : AvailabilitySlot), ⟨600, 660, true⟩,
        ⟨660, 720, true⟩].length ≠ 2)
    ∧ ∃ s ∈ ([(⟨540, 600, true⟩ : AvailabilitySlot), ⟨600, 660, true⟩,
        ⟨660, 720, true⟩]), ¬ (s.end_time ≤ 690) := by decide

/-- C4 (amended): the loop produces zero slots exactly when the window is empty
(`end_time ≤ start_time`); for `slot_duration ≤ 0` with a nonempty window the
loop never terminates (no fuel suffices), and a nonempty window shorter than one
slot still emits a slot rather than zero. -/
theorem generate_slots_degenerate (start_time end_time slot_duration : Int)
    (existing : List Appointment) :
    (end_time ≤ start_time →
      generate_slots start_time end_time slot_duration existing = some [])
    ∧ (slot_duration ≤ 0 → start_time < end_time →
      ∀ fuel, slotsLoop end_time slot_duration existing fuel start_time = none) := by
  constructor
  · intro hle
    unfold generate_slots
    have h0 : (end_time - start_time).toNat = 0 := by omega
    rw [h0]
    have hlt : ¬ start_time < end_time := by omega
    simp [slotsLoop, hlt]
  · intro hd hlt fuel
    exact slotsLoop_diverges hd fuel start_time hlt

/-- Witness for C4: an empty window yields zero slots, and a zero slot duration
on a nonempty window exhausts any fuel. -/
theorem generate_slots_degenerate_witness :
    generate_slots 720 540 30 [] = some []
    ∧ slotsLoop 540 0 [] 7 0 = none :=
  ⟨(generate_slots_degenerate 720 540 30 []).1 (by decide),
   (generate_slots_degenerate 0 540 0 []).2 (by decide) (by decide) 7⟩

/-- C4 counterexample: a 09:00–09:30 window (540–570) with 60-minute slots spans
less than one slot, yet the loop emits the slot 09:00–10:00 instead of zero
slots. -/
theorem generate_slots_short_window_counterexample :
    generate_slots 540 570 60 [] = some [⟨540, 600, true⟩]
    ∧ generate_slots 540 570 60 [] ≠ some [] := by decide

/-! ### create_appointment lemmas -/

/-- When the equality-based conflict check finds nothing, `create_appointment`
commits the new pending row regardless of the notification outcome. -/
theorem create_appointment_ok (db : List Appointment) (u : User)
    (data : AppointmentCreate) (newId : Nat) (nf : Bool)
    (hany : db.any (createConflictsWith data) = false) :
    create_appointment db u data newId nf =
      .ok (db ++ [newAppointmentRow u data newId], newAppointmentRow u data newId) := by
  unfold create_appointment
  rw [hany]
  cases nf <;> rfl

/-- When the equality-based conflict check fires, `create_appointment` raises
409 Conflict. -/
theorem create_appointment_conflict (db : List Appointment) (u : User)
    (data : AppointmentCreate) (newId : Nat) (nf : Bool)
    (hany : db.any (createConflictsWith data) = true) :
    create_appointment db u data newId nf = .error .conflict := by
  unfold create_appointment
  rw [hany]
  rfl

/-- Appending one row keeps `liveDistinctStarts` when the new row clashes with
no existing row. -/
theorem liveDistinctStarts_append (db : List Appointment) (x : Appointment)
    (hdb : liveDistinctStarts db = true)
    (hx : ∀ a ∈ db, sameStartClashB a x = false) :
    liveDistinctStarts (db ++ [x]) = true := by
  induction db with
  | nil => simp [liveDistinctStarts]
  | cons a rest ih =>
    simp only [liveDistinctStarts, Bool.and_eq_true] at hdb
    obtain ⟨h1, h2⟩ := hdb
    have hx1 : sameStartClashB a x = false := hx a (List.mem_cons_self a rest)
    have hxr : ∀ b ∈ rest, sameStartClashB b x = false :=
      fun b hb => hx b (List.mem_cons_of_mem a hb)
    have ih2 := ih h2 hxr
    simp only [List.cons_append, liveDistinctStarts, Bool.and_eq_true,
      List.append_eq]
    refine ⟨?_, ih2⟩
    rw [List.all_append]
    simp [h1, hx1]

/-- A row passing the create-time conflict check cannot clash (same tailor, both
live, equal start) with the new pending row it admits. -/
theorem no_clash_of_no_conflict (data : AppointmentCreate) (u : User)
    (newId : Nat) (a : Appointment)
    (hc : createConflictsWith data a = false) :
    sameStartClashB a (newAppointmentRow u data newId) = false := by
  unfold createConflictsWith at hc
  unfold sameStartClashB newAppointmentRow
  simp only
  cases h1 : a.tailor_id == data.tailor_id <;>
    cases h2 : a.scheduled_date == data.scheduled_date <;>
    cases h3 : statusIsLive a.status <;>
    simp_all [statusIsLive]

/-- C1 (amended): `create_appointment` preserves the weaker invariant actually
enforced by its equality-only check — live appointments of the same tailor have
pairwise distinct start times.  The interval-overlap invariant of the claim is
not an invariant of the system (see the counterexample: `update_appointment`
changes `scheduled_date` with no conflict check at all). -/
theorem create_preserves_liveDistinctStarts (db : List Appointment) (u : User)
    (data : AppointmentCreate) (newId : Nat) (nf : Bool)
    (db2 : List Appointment) (na : Appointment)
    (hinv : liveDistinctStarts db = true)
    (h : create_appointment db u data newId nf = .ok (db2, na)) :
    liveDistinctStarts db2 = true := by
  cases hany : db.any (createConflictsWith data) with
  | false =>
    rw [create_appointment_ok db u data newId nf hany] at h
    obtain ⟨h1, h2⟩ : db ++ [newAppointmentRow u data newId] = db2 ∧
        newAppointmentRow u data newId = na := by
      simpa using h
    subst h1
    refine liveDistinctStarts_append db _ hinv ?_
    intro a ha
    have hc : createConflictsWith data a = false := by
      have := List.any_eq_false.mp hany
      simpa using this a ha
    exact no_clash_of_no_conflict data u newId a hc
  | true =>
    rw [create_appointment_conflict db u data newId nf hany] at h
    exact Except.noConfusion h

/-- Witness for C1: booking the touching 10:30 slot against a confirmed 10:00
appointment keeps the distinct-start-times invariant. -/
theorem create_preserves_liveDistinctStarts_witness :
    liveDistinctStarts
      [tailor1Confirmed600, newAppointmentRow customerUser touchRequest 2] = true :=
  create_preserves_liveDistinctStarts [tailor1Confirmed600] customerUser
    touchRequest 2 false
    [tailor1Confirmed600, newAppointmentRow customerUser touchRequest 2]
    (newAppointmentRow customerUser touchRequest 2)
    (by decide) (by decide)

/-- C1 counterexample: a reachable two-appointment state satisfies the overlap
invariant, yet `update_appointment` (an operation that writes appointments)
moves the pending 11:40 appointment to 10:15 with no conflict check, leaving two
live appointments of tailor 1 with overlapping intervals [600,630) and
[615,645). -/
theorem update_breaks_overlap_invariant :
    liveNoOverlap [tailor1Confirmed600, tailor1Pending700] = true
    ∧ update_appointment [tailor1Confirmed600, tailor1Pending700] adminUser 2
        { scheduled_date := some 615 } =
      .ok ([tailor1Confirmed600, { tailor1Pending700 with scheduled_date := 615 }],
           { tailor1Pending700 with scheduled_date := 615 })
    ∧ liveNoOverlap
        [tailor1Confirmed600, { tailor1Pending700 with scheduled_date := 615 }] =
      false := by decide

/-- C2 (amended): `create_appointment` raises Conflict **iff** some live
appointment of the same tailor has exactly the requested start time; an
overlapping request with a different start time is accepted (see the
counterexample), a touching request is accepted, and non-live appointments never
cause a conflict. -/
theorem create_conflict_iff (db : List Appointment) (u : User)
    (data : AppointmentCreate) (newId : Nat) (nf : Bool) :
    create_appointment db u data newId nf = .error .conflict ↔
      ∃ a ∈ db, a.tailor_id = data.tailor_id ∧
        a.scheduled_date = data.scheduled_date ∧ statusIsLive a.status = true := by
  cases hany : db.any (createConflictsWith data) with
  | false =>
    rw [create_appointment_ok db u data newId nf hany]
    constructor
    · intro h
      exact Except.noConfusion h
    · rintro ⟨a, ha, h1, h2, h3⟩
      have hc : createConflictsWith data a = false := by
        have := List.any_eq_false.mp hany
        simpa using this a ha
      unfold createConflictsWith at hc
      simp [h1, h2, h3] at hc
  | true =>
    rw [create_appointment_conflict db u data newId nf hany]
    constructor
    · intro _
      obtain ⟨a, ha, hc⟩ := List.any_eq_true.mp hany
      unfold createConflictsWith at hc
      simp only [Bool.and_eq_true, beq_iff_eq] at hc
      exact ⟨a, ha, hc.1.1, hc.1.2, hc.2⟩
    · intro _
      rfl

/-- C2 counterexample: the spec's Scenario 2 — a request for 10:15–10:45 against
an existing confirmed 10:00–10:30 appointment of the same tailor must be
rejected with Conflict, but the implementation (which compares start times for
exact equality) accepts it and books the overlapping appointment. -/
theorem create_overlap_accepted_counterexample :
    create_appointment [tailor1Confirmed600] customerUser overlapRequest 2 false =
      .ok ([tailor1Confirmed600, newAppointmentRow customerUser overlapRequest 2],
           newAppointmentRow customerUser overlapRequest 2)
    ∧ create_appointment [tailor1Confirmed600] customerUser overlapRequest 2 false ≠
        .error .conflict := by decide

/-- C9: a failing notification dispatch never fails a successful booking — when
the conflict check passes, `create_appointment` commits and returns the new
pending appointment whether or not the notification raises. -/
theorem create_notification_independent (db : List Appointment) (u : User)
    (data : AppointmentCreate) (newId : Nat)
    (hclear : ∀ a ∈ db, ¬(a.tailor_id = data.tailor_id ∧
      a.scheduled_date = data.scheduled_date ∧ statusIsLive a.status = true)) :
    ∀ notifyFails,
      create_appointment db u data newId notifyFails =
        .ok (db ++ [newAppointmentRow u data newId], newAppointmentRow u data newId)
      ∧ (newAppointmentRow u data newId).status = .pending := by
  have hany : db.any (createConflictsWith data) = false := by
    rw [List.any_eq_false]
    intro a ha
    have hna := hclear a ha
    unfold createConflictsWith
    cases h1 : a.tailor_id == data.tailor_id <;>
      cases h2 : a.scheduled_date == data.scheduled_date <;>
      cases h3 : statusIsLive a.status <;>
      simp_all
  intro nf
  exact ⟨create_appointment_ok db u data newId nf hany, rfl⟩

/-- Witness for C9: booking the touching 10:30 slot succeeds with a pending row
even when the notification dispatch raises (`notifyFails = true`). -/
theorem create_notification_independent_witness :
    create_appointment [tailor1Confirmed600] customerUser touchRequest 2 true =
      .ok ([tailor1Confirmed600, newAppointmentRow customerUser touchRequest 2],
           newAppointmentRow customerUser touchRequest 2)
    ∧ (newAppointmentRow customerUser touchRequest 2).status = .pending :=
  create_notification_independent [tailor1Confirmed600] customerUser touchRequest 2
    (by decide) true

/-- C5: cancelling an appointment whose status is outside {pending, confirmed}
fails with the precondition-failure error (400, distinct from the 409 conflict
kind) and leaves the database — hence every field of the appointment —
unchanged; no `cancelled_at` or `cancellation_reason` is written. -/
theorem cancel_non_live_precondition (db : List Appointment) (u : User)
    (i : Nat) (reason : String) (now : Int) (appointment : Appointment)
    (hfind : db.find? (fun a => a.id == i) = some appointment)
    (hp : appointment.status ≠ .pending)
    (hc : appointment.status ≠ .confirmed) :
    runCancel db u i reason now = (db, some .preconditionFailed)
    ∧ ApiError.preconditionFailed ≠ ApiError.conflict := by
  have hcc : appointment.can_cancel = false := by
    unfold Appointment.can_cancel
    cases hst : appointment.status <;> simp_all
  refine ⟨?_, by decide⟩
  simp [runCancel, cancel_appointment, hfind, hcc]

/-- Witness for C5: the spec's Scenario 4 — cancelling a completed appointment. -/
theorem cancel_non_live_precondition_witness :
    (runCancel [tailor1Completed500] customerUser 3 sampleReason 900 =
      ([tailor1Completed500], some .preconditionFailed)
    ∧ ApiError.preconditionFailed ≠ ApiError.conflict) :=
  cancel_non_live_precondition [tailor1Completed500] customerUser 3 sampleReason
    900 tailor1Completed500 (by decide) (by decide) (by decide)

/-- C6 (amended): the reschedule endpoint performs **no** conflict check — for a
pending/confirmed appointment, with permission, any new scheduled time is
accepted, even one that overlaps another live appointment of the same tailor;
the row is updated in place (new date, status `rescheduled`, count + 1). -/
theorem reschedule_ignores_conflicts (db : List Appointment) (u : User)
    (i : Nat) (nd : Int) (appointment : Appointment)
    (hfind : db.find? (fun a => a.id == i) = some appointment)
    (hcan : appointment.can_reschedule = true)
    (hperm : (u.is_customer && !(appointment.customer_id == u.id)) = false)
    (_hconf : ∃ b ∈ db, b.id ≠ appointment.id ∧ b.tailor_id = appointment.tailor_id
      ∧ statusIsLive b.status = true
      ∧ b.scheduled_date < nd + appointment.duration_minutes
      ∧ nd < b.scheduled_date + b.duration_minutes) :
    reschedule_appointment db u i nd =
      .ok (db.map (fun a => if a.id == i then rescheduledRow appointment nd else a),
           rescheduledRow appointment nd) := by
  simp [reschedule_appointment, hfind, hcan, hperm]

/-- C6 counterexample: rescheduling the pending appointment 2 onto the exact
time of the confirmed appointment 1 of the same tailor succeeds — no Conflict
is raised, and `scheduled_date` and `reschedule_count` are both changed,
contrary to the claim. -/
theorem reschedule_conflicting_time_accepted :
    reschedule_appointment [tailor1Confirmed600, tailor1Pending700] adminUser 2 600 =
      .ok ([tailor1Confirmed600, rescheduledRow tailor1Pending700 600],
           rescheduledRow tailor1Pending700 600)
    ∧ reschedule_appointment [tailor1Confirmed600, tailor1Pending700] adminUser 2 600 ≠
        .error .conflict
    ∧ (rescheduledRow tailor1Pending700 600).scheduled_date ≠
        tailor1Pending700.scheduled_date
    ∧ (rescheduledRow tailor1Pending700 600).reschedule_count ≠
        tailor1Pending700.reschedule_count := by decide

/-- Witness for C6: appointment 2 (pending, tailor 1) is rescheduled by an admin
onto 10:15, overlapping the confirmed 10:00–10:30 appointment 1 — accepted. -/
theorem reschedule_ignores_conflicts_witness :
    reschedule_appointment [tailor1Confirmed600, tailor1Pending700] adminUser 2 615 =
      .ok ([tailor1Confirmed600, tailor1Pending700].map
             (fun a => if a.id == 2 then rescheduledRow tailor1Pending700 615 else a),
           rescheduledRow tailor1Pending700 615) :=
  reschedule_ignores_conflicts [tailor1Confirmed600, tailor1Pending700] adminUser
    2 615 tailor1Pending700 (by decide) (by decide) (by decide)
    ⟨tailor1Confirmed600, by decide, by decide, by decide, by decide, by decide,
     by decide⟩

/-- C7: a successful reschedule mutates the found row in place — sets the new
`scheduled_date`, increments `reschedule_count` by exactly 1, stamps the status
`rescheduled` — leaves every other field of that row and every other row
unchanged, and creates no new row. -/
theorem reschedule_frame (db : List Appointment) (u : User) (i : Nat) (nd : Int)
    (appointment : Appointment)
    (hfind : db.find? (fun a => a.id == i) = some appointment)
    (hcan : appointment.can_reschedule = true)
    (hperm : (u.is_customer && !(appointment.customer_id == u.id)) = false) :
    reschedule_appointment db u i nd =
      .ok (db.map (fun a => if a.id == i then rescheduledRow appointment nd else a),
           rescheduledRow appointment nd)
    ∧ (db.map (fun a => if a.id == i then rescheduledRow appointment nd else a)).length
        = db.length
    ∧ (∀ a ∈ db, a.id ≠ i →
        a ∈ db.map (fun a => if a.id == i then rescheduledRow appointment nd else a))
    ∧ (rescheduledRow appointment nd).scheduled_date = nd
    ∧ (rescheduledRow appointment nd).reschedule_count =
        appointment.reschedule_count + 1
    ∧ (rescheduledRow appointment nd).status = .rescheduled
    ∧ (rescheduledRow appointment nd).customer_id = appointment.customer_id
    ∧ (rescheduledRow appointment nd).tailor_id = appointment.tailor_id
    ∧ (rescheduledRow appointment nd).branch_id = appointment.branch_id
    ∧ (rescheduledRow appointment nd).appointment_type = appointment.appointment_type
    ∧ (rescheduledRow appointment nd).duration_minutes = appointment.duration_minutes
    ∧ (rescheduledRow appointment nd).customer_notes = appointment.customer_notes
    ∧ (rescheduledRow appointment nd).tailor_notes = appointment.tailor_notes
    ∧ (rescheduledRow appointment nd).original_appointment_id =
        appointment.original_appointment_id
    ∧ (rescheduledRow appointment nd).is_priority = appointment.is_priority
    ∧ (rescheduledRow appointment nd).is_rush = appointment.is_rush := by
  refine ⟨?_, List.length_map db _, ?_, rfl, rfl, rfl, rfl, rfl, rfl, rfl, rfl,
    rfl, rfl, rfl, rfl, rfl⟩
  · simp [reschedule_appointment, hfind, hcan, hperm]
  · intro a ha hne
    rw [List.mem_map]
    refine ⟨a, ha, ?_⟩
    have hbe : (a.id == i) = false := beq_eq_false_iff_ne.mpr hne
    rw [hbe]
    rfl

/-- Witness for C7: the owning customer reschedules their pending appointment to
13:20. -/
theorem reschedule_frame_witness :
    reschedule_appointment [tailor1Pending700] customerUser 2 800 =
      .ok ([tailor1Pending700].map
             (fun a => if a.id == 2 then rescheduledRow tailor1Pending700 800 else a),
           rescheduledRow tailor1Pending700 800)
    ∧ ([tailor1Pending700].map
         (fun a => if a.id == 2 then rescheduledRow tailor1Pending700 800 else a)).length
        = [tailor1Pending700].length
    ∧ (∀ a ∈ [tailor1Pending700], a.id ≠ 2 →
        a ∈ [tailor1Pending700].map
          (fun a => if a.id == 2 then rescheduledRow tailor1Pending700 800 else a))
    ∧ (rescheduledRow tailor1Pending700 800).scheduled_date = 800
    ∧ (rescheduledRow tailor1Pending700 800).reschedule_count =
        tailor1Pending700.reschedule_count + 1
    ∧ (rescheduledRow tailor1Pending700 800).status = .rescheduled
    ∧ (rescheduledRow tailor1Pending700 800).customer_id =
        tailor1Pending700.customer_id
    ∧ (rescheduledRow tailor1Pending700 800).tailor_id =
        tailor1Pending700.tailor_id
    ∧ (rescheduledRow tailor1Pending700 800).branch_id =
        tailor1Pending700.branch_id
    ∧ (rescheduledRow tailor1Pending700 800).appointment_type =
        tailor1Pending700.appointment_type
    ∧ (rescheduledRow tailor1Pending700 800).duration_minutes =
        tailor1Pending700.duration_minutes
    ∧ (rescheduledRow tailor1Pending700 800).customer_notes =
        tailor1Pending700.customer_notes
    ∧ (rescheduledRow tailor1Pending700 800).tailor_notes =
        tailor1Pending700.tailor_notes
    ∧ (rescheduledRow tailor1Pending700 800).original_appointment_id =
        tailor1Pending700.original_appointment_id
    ∧ (rescheduledRow tailor1Pending700 800).is_priority =
        tailor1Pending700.is_priority
    ∧ (rescheduledRow tailor1Pending700 800).is_rush =
        tailor1Pending700.is_rush :=
  reschedule_frame [tailor1Pending700] customerUser 2 800 tailor1Pending700
    (by decide) (by decide) (by decide)

/-- C8 (amended): the status-update gate checks only the actor's **role**: it
raises PermissionDenied exactly for customers (leaving the database unchanged),
and any tailor — whether or not they are the tailor-of-record — as well as any
admin or staff member reaches the update, which succeeds whenever the
appointment exists. -/
theorem update_status_role_gate (db : List Appointment) (u : User) (i : Nat)
    (st : AppointmentStatus) (notes : Option String) (now : Int) :
    (update_appointment_status db u i st notes now = .error .permissionDenied ↔
      u.role = .customer)
    ∧ (u.role = .customer →
        runStatusUpdate db u i st notes now = (db, some .permissionDenied))
    ∧ (u.role ≠ .customer → ∀ a, db.find? (fun x => x.id == i) = some a →
        ∃ p, update_appointment_status db u i st notes now = .ok p) := by
  have hgate : ∀ r, u.role = r →
      (u.is_tailor || u.is_admin || u.is_staff) =
        (r == .tailor || r == .admin || r == .staff) := by
    intro r hr
    simp [User.is_tailor, User.is_admin, User.is_staff, hr]
  cases hrole : u.role with
  | customer =>
    refine ⟨?_, ?_, ?_⟩
    · constructor
      · intro _
        rfl
      · intro _
        unfold update_appointment_status
        rw [hgate _ hrole]
        rfl
    · intro _
      unfold runStatusUpdate update_appointment_status
      rw [hgate _ hrole]
      rfl
    · intro hne
      exact absurd rfl hne
  | tailor =>
    refine ⟨?_, fun h => absurd h (by simp), fun _ a hfind => ?_⟩
    · constructor
      · intro h
        unfold update_appointment_status at h
        rw [hgate _ hrole] at h
        simp only [Bool.or_self] at h
        cases hfind : db.find? (fun x => x.id == i) <;> rw [hfind] at h <;>
          simp_all
      · intro h
        exact absurd h (by simp)
    · refine ⟨(db.map (fun x => if x.id == i then statusUpdatedRow a st notes now
          else x), statusUpdatedRow a st notes now), ?_⟩
      unfold update_appointment_status
      rw [hgate _ hrole]
      simp only [hfind]
      rfl
  | admin =>
    refine ⟨?_, fun h => absurd h (by simp), fun _ a hfind => ?_⟩
    · constructor
      · intro h
        unfold update_appointment_status at h
        rw [hgate _ hrole] at h
        simp only [Bool.or_self] at h
        cases hfind : db.find? (fun x => x.id == i) <;> rw [hfind] at h <;>
          simp_all
      · intro h
        exact absurd h (by simp)
    · refine ⟨(db.map (fun x => if x.id == i then statusUpdatedRow a st notes now
          else x), statusUpdatedRow a st notes now), ?_⟩
      unfold update_appointment_status
      rw [hgate _ hrole]
      simp only [hfind]
      rfl
  | staff =>
    refine ⟨?_, fun h => absurd h (by simp), fun _ a hfind => ?_⟩
    · constructor
      · intro h
        unfold update_appointment_status at h
        rw [hgate _ hrole] at h
        simp only [Bool.or_self] at h
        cases hfind : db.find? (fun x => x.id == i) <;> rw [hfind] at h <;>
          simp_all
      · intro h
        exact absurd h (by simp)
    · refine ⟨(db.map (fun x => if x.id == i then statusUpdatedRow a st notes now
          else x), statusUpdatedRow a st notes now), ?_⟩
      unfold update_appointment_status
      rw [hgate _ hrole]
      simp only [hfind]
      rfl

/-- Witness for C8: a customer is rejected with the database unchanged, while an
admin's status update on the existing appointment succeeds. -/
theorem update_status_role_gate_witness :
    runStatusUpdate [tailor1Pending700] customerUser 2 .confirmed none 900 =
      ([tailor1Pending700], some .permissionDenied)
    ∧ ∃ p, update_appointment_status [tailor1Pending700] adminUser 2 .confirmed
        none 900 = .ok p :=
  ⟨(update_status_role_gate [tailor1Pending700] customerUser 2 .confirmed none
      900).2.1 rfl,
   (update_status_role_gate [tailor1Pending700] adminUser 2 .confirmed none
      900).2.2 (by decide) tailor1Pending700 (by decide)⟩

/-- C8 counterexample: tailor 2 is not the tailor-of-record of appointment 2
(whose tailor is 1), yet their status update succeeds instead of being rejected
with PermissionDenied. -/
theorem nonrecord_tailor_sets_status :
    tailor1Pending700.tailor_id ≠ tailorUser2.id
    ∧ update_appointment_status [tailor1Pending700] tailorUser2 2 .confirmed
        none 900 =
      .ok ([{ tailor1Pending700 with status := .confirmed }],
           { tailor1Pending700 with status := .confirmed })
    ∧ update_appointment_status [tailor1Pending700] tailorUser2 2 .confirmed
        none 900 ≠ .error .permissionDenied := by decide

/-! ### Duration-bound lemmas (C10) -/

/-- A payload passing create-validation has its duration in [15, 240], equal to
30 when the request omitted it. -/
theorem validate_create_ok (r : RawAppointmentCreate) (data : AppointmentCreate)
    (h : validate_create r = .ok data) :
    15 ≤ data.duration_minutes ∧ data.duration_minutes ≤ 240 ∧
      (r.duration_minutes = none → data.duration_minutes = 30) := by
  unfold validate_create at h
  split at h
  next hcond =>
    rw [Except.ok.injEq] at h
    subst h
    rw [Bool.and_eq_true] at hcond
    have hv := hcond.1
    unfold validDuration at hv
    rw [Bool.and_eq_true] at hv
    refine ⟨of_decide_eq_true hv.1, of_decide_eq_true hv.2, ?_⟩
    intro hn
    simp [hn]
  next => exact Except.noConfusion h

/-- Create-validation rejects an out-of-bounds duration. -/
theorem validate_create_rejects (r : RawAppointmentCreate) (d : Int)
    (hd : r.duration_minutes = some d) (hbad : d < 15 ∨ 240 < d) :
    validate_create r = .error .validationError := by
  unfold validate_create
  rw [hd]
  have hv : validDuration d = false := by
    unfold validDuration
    rcases hbad with h | h <;> simp <;> omega
  simp [hv]

/-- A payload passing update-validation is returned unchanged, with any provided
duration in [15, 240]. -/
theorem validate_update_ok (r u2 : AppointmentUpdate)
    (h : validate_update r = .ok u2) :
    u2 = r ∧ ∀ d, r.duration_minutes = some d → validDuration d = true := by
  unfold validate_update at h
  split at h
  next hcond =>
    rw [Except.ok.injEq] at h
    refine ⟨h.symm, ?_⟩
    intro d hd
    rw [Bool.and_eq_true, Bool.and_eq_true] at hcond
    have h1 := hcond.1.1
    rw [hd] at h1
    exact h1
  next => exact Except.noConfusion h

/-- Update-validation rejects an out-of-bounds duration. -/
theorem validate_update_rejects (r : AppointmentUpdate) (d : Int)
    (hd : r.duration_minutes = some d) (hbad : d < 15 ∨ 240 < d) :
    validate_update r = .error .validationError := by
  unfold validate_update
  rw [hd]
  have hv : validDuration d = false := by
    unfold validDuration
    rcases hbad with h | h <;> simp <;> omega
  simp [hv]

/-- The update mutation keeps the stored duration in bounds: it either keeps
the old (in-bounds) value — also when Python truthiness skips a zero — or
installs a validated one. -/
theorem applyUpdate_duration_bounds (u : User) (upd : AppointmentUpdate)
    (a : Appointment) (ha : durationInBounds a)
    (hupd : ∀ d, upd.duration_minutes = some d → validDuration d = true) :
    durationInBounds (applyUpdate u upd a) := by
  rcases upd with ⟨osd, od, ocn, otn⟩
  unfold applyUpdate
  simp only at hupd
  cases od with
  | none =>
    cases osd <;> cases ocn <;> cases otn <;> dsimp only <;>
      first
        | exact ha
        | (split <;> exact ha)
  | some d =>
    have hv := hupd d rfl
    unfold validDuration at hv
    rw [Bool.and_eq_true] at hv
    have h1 := of_decide_eq_true hv.1
    have h2 := of_decide_eq_true hv.2
    cases osd <;> cases ocn <;> cases otn <;> dsimp only <;>
      repeat' split
    all_goals first
      | exact ha
      | exact ⟨h1, h2⟩

/-- With the target found and the ownership check passing, `update_appointment`
commits the mutated row in place. -/
theorem update_appointment_ok (db : List Appointment) (u : User) (i : Nat)
    (upd : AppointmentUpdate) (appointment : Appointment)
    (hfind : db.find? (fun a => a.id == i) = some appointment)
    (hperm : (u.is_customer && !(appointment.customer_id == u.id)) = false) :
    update_appointment db u i upd =
      .ok (db.map (fun a => if a.id == i then applyUpdate u upd appointment else a),
           applyUpdate u upd appointment) := by
  simp [update_appointment, hfind, hperm]

/-- With the target found and the ownership check failing, `update_appointment`
raises 403. -/
theorem update_appointment_denied (db : List Appointment) (u : User) (i : Nat)
    (upd : AppointmentUpdate) (appointment : Appointment)
    (hfind : db.find? (fun a => a.id == i) = some appointment)
    (hperm : (u.is_customer && !(appointment.customer_id == u.id)) = true) :
    update_appointment db u i upd = .error .permissionDenied := by
  simp [update_appointment, hfind, hperm]

/-- C10: every appointment created or updated through the API pipeline has
`duration_minutes` in [15, 240] (defaulting to 30 when omitted at creation),
and a create or update request with an out-of-bounds duration is rejected with
a validation error before the handler runs, so no state changes. -/
theorem api_duration_bounds :
    (∀ db u raw newId nf db2 na,
        (∀ a ∈ db, durationInBounds a) →
        api_create_appointment db u raw newId nf = .ok (db2, na) →
        (∀ a ∈ db2, durationInBounds a) ∧
          (raw.duration_minutes = none → na.duration_minutes = 30))
    ∧ (∀ db u raw newId nf d,
        raw.duration_minutes = some d → (d < 15 ∨ 240 < d) →
        api_create_appointment db u raw newId nf = .error .validationError)
    ∧ (∀ db u i upd db2 a2,
        (∀ a ∈ db, durationInBounds a) →
        api_update_appointment db u i upd = .ok (db2, a2) →
        ∀ a ∈ db2, durationInBounds a)
    ∧ (∀ db u i upd d,
        upd.duration_minutes = some d → (d < 15 ∨ 240 < d) →
        api_update_appointment db u i upd = .error .validationError) := by
  refine ⟨?_, ?_, ?_, ?_⟩
  · intro db u raw newId nf db2 na hdb h
    unfold api_create_appointment at h
    cases hval : validate_create raw with
    | error e =>
      rw [hval] at h
      exact Except.noConfusion h
    | ok data =>
      rw [hval] at h
      obtain ⟨hb1, hb2, hb30⟩ := validate_create_ok raw data hval
      have h2 : create_appointment db u data newId nf = .ok (db2, na) := h
      cases hany : db.any (createConflictsWith data) with
      | true =>
        rw [create_appointment_conflict db u data newId nf hany] at h2
        exact Except.noConfusion h2
      | false =>
        rw [create_appointment_ok db u data newId nf hany] at h2
        rw [Except.ok.injEq, Prod.mk.injEq] at h2
        obtain ⟨hdb2, hna⟩ := h2
        subst hdb2
        subst hna
        constructor
        · intro a ha
          rcases List.mem_append.mp ha with hmem | hmem
          · exact hdb a hmem
          · rcases List.mem_singleton.mp hmem with rfl
            exact ⟨hb1, hb2⟩
        · intro hn
          exact hb30 hn
  · intro db u raw newId nf d hd hbad
    unfold api_create_appointment
    rw [validate_create_rejects raw d hd hbad]
  · intro db u i upd db2 a2 hdb h
    unfold api_update_appointment at h
    cases hval : validate_update upd with
    | error e =>
      rw [hval] at h
      exact Except.noConfusion h
    | ok u2 =>
      rw [hval] at h
      obtain ⟨rfl, hdur⟩ := validate_update_ok upd u2 hval
      have h2 : update_appointment db u i u2 = .ok (db2, a2) := h
      cases hfind : db.find? (fun a => a.id == i) with
      | none =>
        have hnf : update_appointment db u i u2 = .error .notFound := by
          unfold update_appointment
          rw [hfind]
        rw [hnf] at h2
        exact Except.noConfusion h2
      | some appointment =>
        have happ : durationInBounds (applyUpdate u u2 appointment) :=
          applyUpdate_duration_bounds u u2 appointment
            (hdb appointment (List.mem_of_find?_eq_some hfind)) hdur
        cases hperm : (u.is_customer && !(appointment.customer_id == u.id)) with
        | true =>
          rw [update_appointment_denied db u i u2 appointment hfind hperm] at h2
          exact Except.noConfusion h2
        | false =>
          rw [update_appointment_ok db u i u2 appointment hfind hperm] at h2
          rw [Except.ok.injEq, Prod.mk.injEq] at h2
          obtain ⟨hdb2, ha2⟩ := h2
          subst hdb2
          intro a ha
          rcases List.mem_map.mp ha with ⟨b, hb, hba⟩
          by_cases hid : (b.id == i) = true
          · simp only [hid, if_true] at hba
            subst hba
            exact happ
          · rw [Bool.not_eq_true] at hid
            simp only [hid, Bool.false_eq_true, if_false] at hba
            subst hba
            exact hdb b hb
  · intro db u i upd d hd hbad
    unfold api_update_appointment
    rw [validate_update_rejects upd d hd hbad]

/-- Witness for C10: creating with an omitted duration stays in bounds with the
default 30, and a 10-minute request is rejected with a validation error. -/
theorem api_duration_bounds_witness :
    ((∀ a ∈ [newAppointmentRow customerUser defaultDurationData 1],
        durationInBounds a)
      ∧ (defaultDurationRequest.duration_minutes = none →
          (newAppointmentRow customerUser defaultDurationData 1).duration_minutes
            = 30))
    ∧ api_create_appointment [] customerUser badDurationRequest 1 false =
        .error .validationError :=
  ⟨api_duration_bounds.1 [] customerUser defaultDurationRequest 1 false
      [newAppointmentRow customerUser defaultDurationData 1]
      (newAppointmentRow customerUser defaultDurationData 1)
      (by decide) (by decide),
   api_duration_bounds.2.1 [] customerUser badDurationRequest 1 false 10 rfl
      (Or.inl (by decide))⟩

end DarjiPro
